import Mathlib

/-!
Verification development for the book-recommender semantic retrieval and
ranking engine.  The C++ sources under `src/` are shallowly embedded:

* `float`/`double` arithmetic is modelled exactly over `ℚ`; the only
  transcendental operation the embedded code uses, `std::sqrt` inside
  `BookQueryEngine::vectorizeQuery`, is passed in as an uninterpreted
  function parameter (named `sq` below), since no claim depends on its value;
* `std::map` / `std::unordered_map` are modelled as association lists with
  `List.lookup` semantics (at most one binding per key in all reachable
  states);
* exceptions are modelled with `Except String`; an out-of-bounds vector
  subscript (undefined behaviour in C++) is modelled as an `Except.error`
  as well, so that "the operation does not complete normally" is visible;
* `std::chrono` time points are modelled as natural numbers counting
  minutes, matching the only use of time in the sources
  (`duration_cast<minutes>(now - timestamp).count() > 60`);
* external collaborators (the `TextEmbedding` provider and the FAISS
  index) are modelled as injected functions/outcomes: `embed` for
  `text_embedder->embed`, `searchFn` for `BookVectorStore::search`.
  The FAISS on-disk index artifacts read by `loadIndex` are external;
  their successful read is assumed, the mapping artifact (the part the
  repository itself writes and parses) is modelled in full.
-/

namespace BookRec

/-- Tagged JSON-like value, modelling the `nlohmann::json` values stored in
`Document::Metadata` (only the shapes the repository stores and reads:
strings, numbers, booleans, arrays of strings, null). -/
inductive JsonVal where
  | str (s : String)
  | num (q : ℚ)
  | boolean (b : Bool)
  | arr (l : List String)
  | null
deriving DecidableEq

/-- Metadata mapping of `Document` (`std::map<std::string, nlohmann::json>`),
modelled as an association list with at most one binding per key. -/
abbrev Metadata := List (String × JsonVal)

/-- Key lookup in an association-list map (the first binding wins; maps
hold one binding per key). -/
def mapLookup {α : Type} : List (String × α) → String → Option α
  | [], _ => none
  | (k', v') :: rest, k => if k = k' then some v' else mapLookup rest k

/-- Models `metadata.at(key)`: `std::map::at` throws `std::out_of_range`
when the key is absent. -/
def metaAt (m : Metadata) (k : String) : Except String JsonVal :=
  match mapLookup m k with
  | some v => Except.ok v
  | none => Except.error ("key not found: " ++ k)

/-- Models `json::get<std::string>()`: throws unless the value is a string. -/
def JsonVal.getString : JsonVal → Except String String
  | .str s => Except.ok s
  | _ => Except.error "type must be string"

/-- Models `json::get<int>()`: numeric JSON values are converted with
truncation toward zero (`static_cast<int>`); other shapes throw. -/
def JsonVal.getInt : JsonVal → Except String Int
  | .num q => Except.ok (q.num / (q.den : Int))
  | _ => Except.error "type must be number"

/-- Models `json::get<double>()`: numeric JSON values are returned; other
shapes throw. -/
def JsonVal.getNum : JsonVal → Except String ℚ
  | .num q => Except.ok q
  | _ => Except.error "type must be number"

/-- Models `json::get<bool>()`: throws unless the value is a boolean. -/
def JsonVal.getBool : JsonVal → Except String Bool
  | .boolean b => Except.ok b
  | _ => Except.error "type must be boolean"

/-- Models `json::get<std::vector<std::string>>()`: throws unless the value
is an array (of strings, the only array shape stored). -/
def JsonVal.getStrList : JsonVal → Except String (List String)
  | .arr l => Except.ok l
  | _ => Except.error "type must be array"

/-- Embeds `book_recommender::Document` (id, searchable text, metadata,
optional embedding vector, creation timestamp in minutes). -/
structure Document where
  id : String
  text : String
  metadata : Metadata
  embedding : Option (List ℚ)
  timestamp : Nat
deriving DecidableEq

/-- Embeds `Document::getSeries`: absent or null `series` metadata yields
`none`; a present non-null value must be a string (`get<std::string>`
throws otherwise). -/
def Document.getSeries (d : Document) : Except String (Option String) :=
  match mapLookup d.metadata "series" with
  | none => Except.ok none
  | some .null => Except.ok none
  | some v => do
      let s ← v.getString
      pure (some s)

/-- Models `std::map::insert(first, last)` used by
`Document::updateMetadata`: each binding of `new_metadata` is inserted
only when its key is not already bound; existing bindings are never
overwritten. -/
def insertRangeNoOverwrite (m new_metadata : Metadata) : Metadata :=
  new_metadata.foldl
    (fun acc kv => if (mapLookup acc kv.1).isSome then acc else acc ++ [kv]) m

/-- Embeds `Document::updateMetadata` from `src/core/Document.cpp`:
`metadata_.insert(new_metadata.begin(), new_metadata.end())`. -/
def Document.updateMetadata (d : Document) (new_metadata : Metadata) : Document :=
  { d with metadata := insertRangeNoOverwrite d.metadata new_metadata }

/-- Embeds `book_recommender::Book` (the catalog item reconstructed from
document metadata). -/
structure Book where
  id : String
  title : String
  author : String
  genres : List String
  description : String
  page_count : Int
  average_rating : ℚ
  ratings_count : Int
  review_count : Int
  series : Option String
  language : String
  publisher : String
  publication_date : String
  isbn13 : String
  is_ebook : Bool
deriving DecidableEq

/-- Embeds `Book::getPopularityScore` from `src/core/Book.cpp`:
`(std::min(ratings_count / 10000.0, 1.0) * 0.7 + (average_rating / 5.0) * 0.3) * 100.0`. -/
def Book.getPopularityScore (b : Book) : ℚ :=
  (min ((b.ratings_count : ℚ) / 10000) 1 * 0.7 + b.average_rating / 5 * 0.3) * 100

/-- Value of the first run of four decimal digits in a character list, if
the list starts with one. -/
def fourDigitsAt : List Char → Option Nat
  | a :: b :: c :: d :: _ =>
      if a.isDigit && b.isDigit && c.isDigit && d.isDigit then
        some ((a.toNat - 48) * 1000 + (b.toNat - 48) * 100 +
              (c.toNat - 48) * 10 + (d.toNat - 48))
      else none
  | _ => none

/-- Leftmost match of the regex `\d{4}` in a character list, as a number. -/
def findFourDigitRun : List Char → Option Nat
  | [] => none
  | l@(_ :: t) =>
      match fourDigitsAt l with
      | some y => some y
      | none => findFourDigitRun t

/-- Embeds `Book::getPublicationYear` from `src/core/Book.cpp`: the first
four-digit run of the free-form publication date (`std::regex "\d{4}"`,
leftmost match, `std::stoi`), or `0` when there is none. -/
def Book.getPublicationYear (b : Book) : Int :=
  match findFourDigitRun b.publication_date.data with
  | some y => (y : Int)
  | none => 0

/-- Embeds `BookQueryEngine::QueryFilter` (all clauses optional). -/
structure QueryFilter where
  genres : Option (List String)
  min_rating : Option ℚ
  max_rating : Option ℚ
  min_ratings_count : Option Int
  publication_year_start : Option Int
  publication_year_end : Option Int
  language : Option String
  ebook_only : Option Bool
  authors : Option (List String)

/-- The default-constructed filter `{}` (every clause absent). -/
def emptyFilter : QueryFilter :=
  ⟨none, none, none, none, none, none, none, none, none⟩

/-- A single optional clause of `passesFilter`: an absent clause imposes no
constraint (the C++ guard `if (filter.field && !check) return false;`). -/
def optClause {α : Type} (o : Option α) (p : α → Bool) : Bool :=
  match o with
  | some x => p x
  | none => true

/-- Embeds `BookQueryEngine::passesFilter` from
`src/query/BookQueryEngine.cpp`.  Each early `return false` of the C++
function becomes one conjunct.  Note the guards taken verbatim from the
source: the genre clause fires only when `filter.genres` is set *and
non-empty*; likewise the author clause; the ebook clause fires whenever
`filter.ebook_only` has a value (`std::optional<bool>` in boolean context
tests presence, not the stored value). -/
def passesFilter (b : Book) (f : QueryFilter) : Bool :=
  optClause f.genres
    (fun gs => gs.isEmpty || b.genres.any (fun g => gs.contains g)) &&
  optClause f.min_rating (fun r => decide (r ≤ b.average_rating)) &&
  optClause f.max_rating (fun r => decide (b.average_rating ≤ r)) &&
  optClause f.min_ratings_count (fun c => decide (c ≤ b.ratings_count)) &&
  optClause f.publication_year_start (fun y => decide (y ≤ b.getPublicationYear)) &&
  optClause f.publication_year_end (fun y => decide (b.getPublicationYear ≤ y)) &&
  optClause f.language (fun l => decide (b.language = l)) &&
  optClause f.ebook_only (fun _ => b.is_ebook) &&
  optClause f.authors (fun as => as.isEmpty || as.contains b.author)

end BookRec

namespace BookRec

/-- Embeds `BookQueryEngine::RecommendationResult`. -/
structure RecommendationResult where
  book : Book
  similarity_score : ℚ
  explanation : String
deriving DecidableEq

/-- Embeds `BookQueryEngine::calculateDiversityScore`: the per-batch
diversity value — genre diversity (count of distinct genres over three
times the result count) averaged with author diversity (count of distinct
authors over the result count); `0` on an empty batch. -/
def calculateDiversityScore (results : List RecommendationResult) : ℚ :=
  if results.isEmpty then 0
  else
    let unique_genres := ((results.map (fun r => r.book.genres)).flatten).dedup.length
    let unique_authors := (results.map (fun r => r.book.author)).dedup.length
    let genre_diversity : ℚ := (unique_genres : ℚ) / ((results.length : ℚ) * 3)
    let author_diversity : ℚ := (unique_authors : ℚ) / (results.length : ℚ)
    (genre_diversity + author_diversity) / 2

/-- The weighted score computed inside the `std::sort` comparator of
`BookQueryEngine::rankResults`:
`0.5 * similarity + 0.3 * popularity + 0.2 * diversity`. -/
def sortScore (d : ℚ) (r : RecommendationResult) : ℚ :=
  0.5 * r.similarity_score + 0.3 * r.book.getPopularityScore + 0.2 * d

/-- The ordering established by `std::sort` with the strict comparator
`a_score > b_score`: consecutive elements of the sorted output satisfy the
comparator's negated flip, i.e. scores are non-increasing. -/
def rankRel (d : ℚ) (a b : RecommendationResult) : Prop :=
  sortScore d b ≤ sortScore d a

instance (d : ℚ) : DecidableRel (rankRel d) :=
  fun a b => inferInstanceAs (Decidable (sortScore d b ≤ sortScore d a))

instance (d : ℚ) : IsTotal RecommendationResult (rankRel d) :=
  ⟨fun a b => le_total (sortScore d b) (sortScore d a)⟩

instance (d : ℚ) : IsTrans RecommendationResult (rankRel d) :=
  ⟨fun _ _ _ hab hbc => le_trans hbc hab⟩

/-- Embeds `BookQueryEngine::rankResults`: computes the batch diversity
score once, then sorts by the weighted comparator.  `std::sort` with the
strict comparator `a_score > b_score` arranges the vector so that scores
are non-increasing; it is modelled by a sort with respect to `rankRel`. -/
def rankResults (results : List RecommendationResult) : List RecommendationResult :=
  let d := calculateDiversityScore results
  List.insertionSort (rankRel d) results

end BookRec

namespace BookRec

/-- Whether a character list starts with the given pattern. -/
def listStartsWith : List Char → List Char → Bool
  | _, [] => true
  | [], _ :: _ => false
  | a :: as, b :: bs => a == b && listStartsWith as bs

/-- Whether the pattern occurs contiguously anywhere in the haystack:
models `std::string::find(pat) != npos` (in particular, the empty pattern
is always found). -/
def listHasSub (hay pat : List Char) : Bool :=
  listStartsWith hay pat ||
    (match hay with
     | [] => false
     | _ :: t => listHasSub t pat)

/-- String form of `listHasSub`, modelling `query.find(s) != npos`. -/
def strHasSub (hay pat : String) : Bool :=
  listHasSub hay.data pat.data

/-- Embeds `BookQueryEngine::enhanceQuery`: appends fixed keyword phrases
for each substring trigger found in the query, in source order. -/
def enhanceQuery (query : String) : String :=
  let e := query
  let e := if strHasSub query "like" then e ++ " similar books recommendations" else e
  let e := if strHasSub query "author" then e ++ " books written by" else e
  let e := if strHasSub query "series" then e ++ " book series sequel prequel" else e
  let genre_keywords : List (String × String) :=
    [("fantasy", "magic dragons adventure quest"),
     ("science fiction", "space technology future sci-fi"),
     ("mystery", "detective crime investigation thriller"),
     ("romance", "love relationship emotional"),
     ("horror", "scary supernatural terror dark")]
  genre_keywords.foldl
    (fun acc kv => if strHasSub query kv.1 then acc ++ " " ++ kv.2 else acc) e

/-- ASCII punctuation predicate, modelling `::ispunct` in the C locale. -/
def isPunctCh (c : Char) : Bool :=
  (33 ≤ c.toNat && c.toNat ≤ 47) || (58 ≤ c.toNat && c.toNat ≤ 64) ||
  (91 ≤ c.toNat && c.toNat ≤ 96) || (123 ≤ c.toNat && c.toNat ≤ 126)

/-- ASCII whitespace predicate, modelling the regex class `\s`. -/
def isWsCh (c : Char) : Bool :=
  c == ' ' || c == '\t' || c == '\n' || c == '\x0b' || c == '\x0c' || c == '\r'

/-- Helper of `collapseWs`: the flag records whether the previous character
was whitespace (i.e. part of a run already replaced). -/
def collapseWsAux : Bool → List Char → List Char
  | _, [] => []
  | prevWs, c :: t =>
      if isWsCh c then
        if prevWs then collapseWsAux true t else ' ' :: collapseWsAux true t
      else c :: collapseWsAux false t

/-- Replaces every maximal run of whitespace by a single space, modelling
`std::regex_replace(s, std::regex("\s+"), " ")`. -/
def collapseWs (l : List Char) : List Char :=
  collapseWsAux false l

/-- Removes leading and trailing whitespace, modelling
`std::regex_replace(s, std::regex("^\s+|\s+$"), "")`. -/
def trimWs (l : List Char) : List Char :=
  ((l.dropWhile isWsCh).reverse.dropWhile isWsCh).reverse

/-- Embeds `BookQueryEngine::preprocessQuery`: lowercase, drop punctuation,
collapse whitespace runs, trim. -/
def preprocessQuery (query : String) : String :=
  let processed := query.data.map Char.toLower
  let processed := processed.filter (fun c => !isPunctCh c)
  let processed := collapseWs processed
  let processed := trimWs processed
  String.mk processed

/-- Embeds `BookQueryEngine::vectorizeQuery`.  `embed` is the external
`text_embedder->embed` collaborator (its failure is the caught exception
branch); `sq` is the uninterpreted square root used for the L2 norm.  On
success the embedding is L2-normalized (skipped when the norm is not
positive); on failure the function returns `std::vector<float>(384, 0.0f)`
— a zero vector of fixed length 384. -/
def vectorizeQuery (sq : ℚ → ℚ) (embed : String → Except String (List ℚ))
    (query : String) : List ℚ :=
  match embed (preprocessQuery query) with
  | Except.ok embedding =>
      let norm := sq ((embedding.map (fun v => v * v)).sum)
      if norm > 0 then embedding.map (fun v => v / norm) else embedding
  | Except.error _ => List.replicate 384 0

/-- Separator-joined listing of the first `min 3 (length)` genres, with the
comma/"and" choice of `BookQueryEngine::generateExplanation` (the "and"
separator is used exactly when the index is the last of the *whole* genre
list). -/
def genreListing (genres : List String) : String :=
  (List.range (min genres.length 3)).foldl
    (fun acc i =>
      let acc := if i > 0 then
        acc ++ (if i = genres.length - 1 then " and " else ", ") else acc
      acc ++ genres.getD i "") ""

/-- Embeds `BookQueryEngine::generateExplanation`.  When the query is
non-empty the source reads `book.getGenres()[0]` with no bounds check; on
an empty genre list this subscript is out of bounds (undefined behaviour),
modelled here as an `Except.error`.  Rational-to-text formatting stands in
for `std::ostream` float formatting; no claim inspects the digits. -/
def generateExplanation (book : Book) (query : String) : Except String String := do
  let base := "Recommended because "
  let withQuery ←
    if query ≠ "" then
      match book.genres[0]? with
      | none => Except.error "vector subscript out of range"
      | some g0 =>
          let s := base ++ "it matches your interest in " ++ g0
          let s := if strHasSub query book.author then
            s ++ " and is written by " ++ book.author else s
          pure s
    else pure base
  let s := withQuery ++ ". It has a rating of " ++ toString book.average_rating ++
    "/5 from " ++ toString book.ratings_count ++ " readers"
  let s := match book.series with
    | some ser => s ++ " and is part of the " ++ ser ++ " series"
    | none => s
  let s := s ++ ". This book combines elements of " ++ genreListing book.genres
  pure s

/-- Embeds `BookVectorStore::SearchResult`. -/
structure SearchResult where
  doc_id : String
  similarity : ℚ
  document : Document
deriving DecidableEq

/-- The `Book` constructor call of `BookQueryEngine::processSearchResults`:
reconstructs a catalog item from a candidate document's metadata.  Every
`metadata.at(key).get<T>()` may throw (key absent, or value of the wrong
type); the throwing subexpressions are evaluated here in the order they
are written in the source. -/
def reconstructBook (doc : Document) : Except String Book := do
  let title ← (← metaAt doc.metadata "title").getString
  let author ← (← metaAt doc.metadata "author").getString
  let genres ← (← metaAt doc.metadata "genres").getStrList
  let page_count ← (← metaAt doc.metadata "page_count").getInt
  let average_rating ← (← metaAt doc.metadata "average_rating").getNum
  let ratings_count ← (← metaAt doc.metadata "ratings_count").getInt
  let review_count ← (← metaAt doc.metadata "review_count").getInt
  let series ← doc.getSeries
  let language ← (← metaAt doc.metadata "language").getString
  let publisher ← (← metaAt doc.metadata "publisher").getString
  let publication_date ← (← metaAt doc.metadata "publication_date").getString
  let isbn13 ← (← metaAt doc.metadata "isbn13").getString
  let is_ebook ← (← metaAt doc.metadata "is_ebook").getBool
  pure ⟨doc.id, title, author, genres, doc.text, page_count, average_rating,
        ratings_count, review_count, series, language, publisher,
        publication_date, isbn13, is_ebook⟩

/-- Embeds the candidate loop of `BookQueryEngine::processSearchResults`:
reconstruct each candidate in order (any exception aborts the whole loop —
there is no per-candidate handler), apply the filter, and attach an
explanation to each surviving candidate. -/
def processSearchResults (results : List SearchResult) (query : String)
    (filter : QueryFilter) : Except String (List RecommendationResult) :=
  match results with
  | [] => Except.ok []
  | r :: rest => do
      let book ← reconstructBook r.document
      if passesFilter book filter then
        let expl ← generateExplanation book query
        let tail ← processSearchResults rest query filter
        pure (⟨book, r.similarity, expl⟩ :: tail)
      else
        processSearchResults rest query filter

/-- The `try` body of `BookQueryEngine::getRecommendations`: enhance the
query, vectorize it, search the vector store with `top_k * 2`, reconstruct
and filter the candidates, rank, truncate to `top_k`.  `searchFn` is the
`BookVectorStore::search` call, which may throw. -/
def getRecommendationsE (sq : ℚ → ℚ) (embed : String → Except String (List ℚ))
    (searchFn : List ℚ → Nat → Except String (List SearchResult))
    (query : String) (filter : QueryFilter) (top_k : Nat) :
    Except String (List RecommendationResult) := do
  let enhanced_query := enhanceQuery query
  let query_vector := vectorizeQuery sq embed enhanced_query
  let search_results ← searchFn query_vector (top_k * 2)
  let recommendations ← processSearchResults search_results query filter
  let ranked := rankResults recommendations
  pure (ranked.take top_k)

/-- Embeds `BookQueryEngine::getRecommendations` including its outer
`catch (const std::exception&)` handler, which logs the error and returns
the empty vector `{}`. -/
def getRecommendations (sq : ℚ → ℚ) (embed : String → Except String (List ℚ))
    (searchFn : List ℚ → Nat → Except String (List SearchResult))
    (query : String) (filter : QueryFilter) (top_k : Nat) :
    List RecommendationResult :=
  match getRecommendationsE sq embed searchFn query filter top_k with
  | Except.ok l => l
  | Except.error _ => []

end BookRec

namespace BookRec

/-- Embeds the cache entry of `BookVectorStore` (`results` plus creation
timestamp, in minutes). -/
structure CacheEntry where
  results : List SearchResult
  timestamp : Nat
deriving DecidableEq

/-- Mutable state of a `BookVectorStore` instance: configuration, the three
document mappings and the search cache.  The FAISS index objects are
external collaborators and carry no state the embedded code reads back. -/
structure BookVectorStore where
  dimension_ : Int
  cache_size_ : Int
  is_trained_ : Bool
  document_store_ : List (String × Document)
  doc_id_to_index_ : List (String × Nat)
  index_to_doc_id_ : List String
  search_cache_ : List (String × CacheEntry)
deriving DecidableEq

/-- Embeds the `BookVectorStore` constructor (defaults in the header:
`dimension = 384`, `cache_size = 1000`). -/
def mkBookVectorStore (dimension cache_size : Int) : BookVectorStore :=
  ⟨dimension, cache_size, false, [], [], [], []⟩

/-- Association-list update modelling `map[key] = value`: overwrites the
binding when present, appends it otherwise. -/
def mapInsert {α : Type} : List (String × α) → String → α → List (String × α)
  | [], k, v => [(k, v)]
  | (k', v') :: rest, k, v =>
      if k' = k then (k, v) :: rest else (k', v') :: mapInsert rest k v

/-- Embeds `BookVectorStore::updateDocumentMapping`: records
`doc_id ↔ index` in both directions, growing `index_to_doc_id_` with
default-constructed (empty) strings as `std::vector::resize` does. -/
def updateDocumentMapping (s : BookVectorStore) (doc_id : String) (index : Nat) :
    BookVectorStore :=
  let i2d := if s.index_to_doc_id_.length ≤ index then
      s.index_to_doc_id_ ++ List.replicate (index + 1 - s.index_to_doc_id_.length) ""
    else s.index_to_doc_id_
  { s with doc_id_to_index_ := mapInsert s.doc_id_to_index_ doc_id index,
           index_to_doc_id_ := i2d.set index doc_id }

/-- A persisted mapping artifact as `loadIndex` consumes it: the declared
record count read from the header, then the per-record parse outcomes.
A record beyond the end of the artifact (a truncated file, or a declared
count larger than the number of records present) behaves like an
unparsable record: the stream read fails silently and the subsequent
`nlohmann::json::parse` of the garbage buffer throws. -/
structure MappingFile where
  declared_count : Nat
  records : List (Except String Document)

/-- The record loop of `BookVectorStore::loadIndex`: reads `remaining` more
records starting at offset `i`; each parsed document is entered into the
(already cleared) mappings; the first failure aborts the loop with the
error, leaving whatever state has been built so far. -/
def loadRecords (s : BookVectorStore) (recs : List (Except String Document)) :
    Nat → Nat → BookVectorStore × Option String
  | _, 0 => ({ s with is_trained_ := true }, none)
  | i, remaining + 1 =>
      match recs[i]? with
      | none => (s, some "json parse error")
      | some (Except.error e) => (s, some e)
      | some (Except.ok doc) =>
          let s := updateDocumentMapping s doc.id i
          let s := { s with document_store_ := mapInsert s.document_store_ doc.id doc }
          loadRecords s recs (i + 1) remaining

/-- Embeds `BookVectorStore::loadIndex` (mapping-artifact part; the FAISS
artifact reads are external and assumed to succeed): the document store
and both id/offset mappings are cleared *before* the record loop runs, and
a failure mid-loop (rethrown by the `catch` block) leaves that partially
rebuilt state in place.  The second component is the propagated error, if
any. -/
def loadIndex (s : BookVectorStore) (f : MappingFile) :
    BookVectorStore × Option String :=
  let s := { s with document_store_ := [], doc_id_to_index_ := [],
                    index_to_doc_id_ := [] }
  loadRecords s f.records 0 f.declared_count

/-- Embeds `BookVectorStore::getFromCache`: a plain lookup — present
entries are returned regardless of their age; no timestamp is consulted. -/
def getFromCache (s : BookVectorStore) (key : String) :
    Option (List SearchResult) :=
  (mapLookup s.search_cache_ key).map (fun e => e.results)

/-- Embeds `BookVectorStore::cleanupCache` at current time `now` (minutes):
erases every entry whose age exceeds 60 minutes. -/
def cleanupCache (now : Nat) (s : BookVectorStore) : BookVectorStore :=
  { s with search_cache_ :=
      s.search_cache_.filter (fun e => decide (now - e.2.timestamp ≤ 60)) }

/-- First entry (in container order) carrying the given timestamp is
removed; models erasing the iterator returned by `std::min_element`. -/
def eraseFirstWithTs : List (String × CacheEntry) → Nat → List (String × CacheEntry)
  | [], _ => []
  | e :: rest, m =>
      if e.2.timestamp = m then rest else e :: eraseFirstWithTs rest m

/-- Removes the entry with the minimal timestamp (the oldest), as
`std::min_element` followed by `erase` does; the empty cache is unchanged. -/
def removeOldestEntry (c : List (String × CacheEntry)) :
    List (String × CacheEntry) :=
  match (c.map (fun e => e.2.timestamp)).min? with
  | none => c
  | some m => eraseFirstWithTs c m

/-- The C++ comparison `search_cache_.size() >= cache_size_` converts the
`int` capacity to `size_t` (modulo 2^64). -/
def atCapacity (len : Nat) (cache_size : Int) : Bool :=
  decide ((cache_size % (2 : Int) ^ 64).toNat ≤ len)

/-- Embeds `BookVectorStore::addToCache` at current time `now`: age-based
cleanup first, then (when still at capacity) eviction of the single oldest
entry, then insertion of the new entry stamped `now`. -/
def addToCache (now : Nat) (s : BookVectorStore) (key : String)
    (results : List SearchResult) : BookVectorStore :=
  let s := cleanupCache now s
  let c := if atCapacity s.search_cache_.length s.cache_size_ then
      removeOldestEntry s.search_cache_
    else s.search_cache_
  { s with search_cache_ := mapInsert c key ⟨results, now⟩ }

/-- Embeds `BookVectorStore::clearCache`. -/
def clearCache (s : BookVectorStore) : BookVectorStore :=
  { s with search_cache_ := [] }

/-- Embeds `BookVectorStore::setCacheSize` at current time `now`: stores
the new capacity, then runs only the age-based `cleanupCache` — no
eviction down to the new bound takes place. -/
def setCacheSize (now : Nat) (s : BookVectorStore) (size : Int) :
    BookVectorStore :=
  cleanupCache now { s with cache_size_ := size }

end BookRec

namespace BookRec

/-- Concrete embedding collaborator that always succeeds with the empty
vector (the value is irrelevant to the scenarios using it). -/
def okEmbed : String → Except String (List ℚ) := fun _ => Except.ok []

/-- Concrete embedding collaborator that always fails, standing for an
unreachable or erroring provider. -/
def failEmbed : String → Except String (List ℚ) := fun _ => Except.error "embedding provider failure"

/-- Concrete `BookVectorStore::search` stand-in that raises on every call
(for instance an `IndexError` from a dimension mismatch). -/
def failSearch : List ℚ → Nat → Except String (List SearchResult) :=
  fun _ _ => Except.error "index failure"

/-- A fully-populated candidate metadata map with every key
`BookQueryEngine::processSearchResults` reads. -/
def goodMeta : Metadata :=
  [("title", JsonVal.str "Good Book"),
   ("author", JsonVal.str "Good Author"),
   ("genres", JsonVal.arr ["fantasy"]),
   ("page_count", JsonVal.num 100),
   ("average_rating", JsonVal.num 4),
   ("ratings_count", JsonVal.num 1000),
   ("review_count", JsonVal.num 10),
   ("language", JsonVal.str "en"),
   ("publisher", JsonVal.str "Pub"),
   ("publication_date", JsonVal.str "2001"),
   ("isbn13", JsonVal.str "9780000000000"),
   ("is_ebook", JsonVal.boolean false)]

/-- A candidate document whose metadata is complete. -/
def goodDoc : Document := ⟨"good-id", "a good description", goodMeta, none, 0⟩

/-- A candidate document whose metadata is missing the required `title`
key (and almost everything else). -/
def badDoc : Document := ⟨"bad-id", "a bad description", [("author", JsonVal.str "B")], none, 0⟩

/-- Search result wrapping `goodDoc`. -/
def goodSR : SearchResult := ⟨"good-id", 1, goodDoc⟩

/-- Search result wrapping `badDoc`. -/
def badSR : SearchResult := ⟨"bad-id", 1, badDoc⟩

/-- A search stand-in returning one reconstructible and one
non-reconstructible candidate. -/
def mixedSearch : List ℚ → Nat → Except String (List SearchResult) :=
  fun _ _ => Except.ok [goodSR, badSR]

/-- A surviving candidate book whose genre list is empty. -/
def noGenreBook : Book :=
  ⟨"ng-id", "No Genre", "Author A", [], "desc", 100, 4, 1000, 10, none,
   "en", "Pub", "2001", "9780000000001", false⟩

/-- A book with one genre, used against the empty-genre-set filter. -/
def c7Book : Book :=
  ⟨"c7-id", "Title7", "Author7", ["fantasy"], "desc", 100, 4, 1000, 10, none,
   "en", "Pub", "2001", "9780000000002", true⟩

/-- A filter whose genre clause is present but holds the empty set. -/
def c7Filter : QueryFilter := { emptyFilter with genres := some [] }

/-- A document sitting in the store before a failing load. -/
def doc0 : Document := ⟨"d0", "text0", [], none, 0⟩

/-- First document of the failing mapping artifact. -/
def doc1 : Document := ⟨"d1", "text1", [], none, 0⟩

/-- Second document of the failing mapping artifact. -/
def doc2 : Document := ⟨"d2", "text2", [], none, 0⟩

/-- A store holding `doc0` before `loadIndex` is attempted. -/
def priorStore : BookVectorStore :=
  { mkBookVectorStore 384 1000 with
      document_store_ := [("d0", doc0)],
      doc_id_to_index_ := [("d0", 0)],
      index_to_doc_id_ := ["d0"] }

/-- A mapping artifact whose header declares five records but which
contains only two (the §8 persistence-failure scenario). -/
def badFile : MappingFile := ⟨5, [Except.ok doc1, Except.ok doc2]⟩

/-- Cache state reached by a single `put` at time 0 into a fresh store. -/
def c3State : BookVectorStore :=
  addToCache 0 (mkBookVectorStore 384 1000) "k" []

/-- Cache state reached by three `put`s of distinct keys at time 0 into a
fresh store with capacity 10. -/
def c9State : BookVectorStore :=
  addToCache 0 (addToCache 0 (addToCache 0 (mkBookVectorStore 384 10) "a" []) "b" []) "c" []

end BookRec

namespace BookRec

theorem mapLookup_append {α : Type} (l₁ l₂ : List (String × α)) (k : String) :
    mapLookup (l₁ ++ l₂) k =
      if (mapLookup l₁ k).isSome then mapLookup l₁ k else mapLookup l₂ k := by
  induction l₁ with
  | nil => simp [mapLookup]
  | cons kv rest ih =>
      obtain ⟨k', v'⟩ := kv
      by_cases h : k = k'
      · simp [mapLookup, h]
      · simp [mapLookup, h, ih]

theorem mapLookup_mapInsert {α : Type} (m : List (String × α)) (k : String) (v : α)
    (k' : String) :
    mapLookup (mapInsert m k v) k' = if k' = k then some v else mapLookup m k' := by
  induction m with
  | nil =>
      by_cases h : k' = k <;> simp [mapInsert, mapLookup, h]
  | cons kv rest ih =>
      obtain ⟨k'', v''⟩ := kv
      by_cases h1 : k'' = k
      · subst h1
        by_cases h2 : k' = k''
        · simp [mapInsert, mapLookup, h2]
        · simp [mapInsert, mapLookup, h2]
      · by_cases h2 : k' = k''
        · subst h2
          simp [mapInsert, mapLookup, h1]
        · simp [mapInsert, h1, mapLookup, h2, ih]

theorem mem_mapInsert {α : Type} (m : List (String × α)) (k : String) (v : α)
    (e : String × α) (h : e ∈ mapInsert m k v) : e = (k, v) ∨ e ∈ m := by
  induction m with
  | nil => simpa [mapInsert] using h
  | cons kv rest ih =>
      obtain ⟨k'', v''⟩ := kv
      by_cases h1 : k'' = k
      · simp only [mapInsert, if_pos h1] at h
        rcases List.mem_cons.mp h with h | h
        · exact Or.inl h
        · exact Or.inr (List.mem_cons_of_mem _ h)
      · simp only [mapInsert, if_neg h1] at h
        rcases List.mem_cons.mp h with h | h
        · exact Or.inr (by simp [h])
        · rcases ih h with h' | h'
          · exact Or.inl h'
          · exact Or.inr (List.mem_cons_of_mem _ h')

theorem mapLookup_insertRangeNoOverwrite (l : Metadata) :
    ∀ (m : Metadata) (k : String),
      mapLookup (insertRangeNoOverwrite m l) k =
        if (mapLookup m k).isSome then mapLookup m k else mapLookup l k := by
  induction l with
  | nil =>
      intro m k
      cases h : mapLookup m k <;> simp [insertRangeNoOverwrite, mapLookup, h]
  | cons kv rest ih =>
      intro m k
      have hstep : insertRangeNoOverwrite m (kv :: rest) =
          insertRangeNoOverwrite
            (if (mapLookup m kv.1).isSome then m else m ++ [kv]) rest := by
        by_cases hm : (mapLookup m kv.1).isSome <;>
          simp [insertRangeNoOverwrite, hm]
      rw [hstep, ih]
      obtain ⟨k1, v1⟩ := kv
      by_cases hm : (mapLookup m k1).isSome
      · simp only [if_pos hm]
        by_cases hk : (mapLookup m k).isSome
        · simp [hk]
        · by_cases hkk : k = k1
          · subst hkk; exact absurd hm hk
          · simp [hk, mapLookup, hkk]
      · simp only [if_neg hm]
        rw [mapLookup_append]
        by_cases hk : (mapLookup m k).isSome
        · simp [hk]
        · by_cases hkk : k = k1
          · subst hkk; simp [hk, mapLookup]
          · simp [hk, mapLookup, hkk]

theorem optClause_iff {α : Type} (o : Option α) (p : α → Bool) :
    optClause o p = true ↔ ∀ x, o = some x → p x = true := by
  cases o <;> simp [optClause]

/-- C10: `Document::updateMetadata` adds only the bindings of the update
whose keys are absent from the document's metadata; any key already
present keeps its previously stored value (`std::map::insert` never
overwrites), so an update carrying a new value for an existing key
silently leaves the old value in place. -/
theorem C10_updateMetadata_keeps_existing (d : Document) (new_metadata : Metadata)
    (k : String) :
    mapLookup (d.updateMetadata new_metadata).metadata k =
      if (mapLookup d.metadata k).isSome then mapLookup d.metadata k
      else mapLookup new_metadata k := by
  unfold Document.updateMetadata
  exact mapLookup_insertRangeNoOverwrite new_metadata d.metadata k

/-- C7 counterexample: a filter whose genre clause is present but carries
the empty genre set excludes nothing — `passesFilter` accepts a book none
of whose genres belongs to that (empty) set, so "every clause present in
the filter holds for the book" fails as stated. -/
theorem C7_counterexample :
    passesFilter c7Book c7Filter = true ∧
      ¬ ∃ g, g ∈ c7Book.genres ∧ g ∈ ([] : List String) := by
  refine ⟨rfl, ?_⟩
  simp

/-- C7 amended: `passesFilter` is the conjunction of the present clauses,
with two provisos forced by the source guards: a present-but-empty genre
or author set imposes no constraint, and a present `ebook_only` clause
(whatever boolean it holds) requires the book to be an ebook.  Rating,
ratings-count, year bounds are inclusive; absent clauses impose no
constraint. -/
theorem C7_passesFilter_iff (b : Book) (f : QueryFilter) :
    passesFilter b f = true ↔
      ((∀ gs, f.genres = some gs → gs ≠ [] → ∃ g, g ∈ b.genres ∧ g ∈ gs) ∧
       (∀ r, f.min_rating = some r → r ≤ b.average_rating) ∧
       (∀ r, f.max_rating = some r → b.average_rating ≤ r) ∧
       (∀ c, f.min_ratings_count = some c → c ≤ b.ratings_count) ∧
       (∀ y, f.publication_year_start = some y → y ≤ b.getPublicationYear) ∧
       (∀ y, f.publication_year_end = some y → b.getPublicationYear ≤ y) ∧
       (∀ l, f.language = some l → b.language = l) ∧
       (f.ebook_only.isSome = true → b.is_ebook = true) ∧
       (∀ as, f.authors = some as → as ≠ [] → b.author ∈ as)) := by
  unfold passesFilter
  simp only [Bool.and_eq_true, and_assoc, optClause_iff]
  refine and_congr ?_ (and_congr ?_ (and_congr ?_ (and_congr ?_ (and_congr ?_
    (and_congr ?_ (and_congr ?_ (and_congr ?_ ?_)))))))
  · exact forall_congr' fun gs => imp_congr_right fun _ => by
      simp [List.isEmpty_iff, List.any_eq_true, or_iff_not_imp_left]
  · exact forall_congr' fun r => imp_congr_right fun _ => by simp
  · exact forall_congr' fun r => imp_congr_right fun _ => by simp
  · exact forall_congr' fun c => imp_congr_right fun _ => by simp
  · exact forall_congr' fun y => imp_congr_right fun _ => by simp
  · exact forall_congr' fun y => imp_congr_right fun _ => by simp
  · exact forall_congr' fun l => imp_congr_right fun _ => by simp
  · constructor
    · intro h hs
      rcases Option.isSome_iff_exists.mp hs with ⟨x, hx⟩
      exact h x hx
    · intro h x hx
      exact h (by simp [hx])
  · exact forall_congr' fun as => imp_congr_right fun _ => by
      simp [List.isEmpty_iff, or_iff_not_imp_left]

/-- C6: after `rankResults`, the list is sorted in non-increasing order of
the composite score `0.5·similarity + 0.3·popularity + 0.2·diversity`,
where popularity is `(min(ratings_count/10000, 1)·0.7 + (rating/5)·0.3)·100`
and diversity is the single per-batch value applied uniformly to every
result. -/
theorem C6_rankResults_sorted (results : List RecommendationResult) :
    List.Sorted
      (fun a b =>
        0.5 * a.similarity_score +
          0.3 * ((min ((a.book.ratings_count : ℚ) / 10000) 1 * 0.7 +
            a.book.average_rating / 5 * 0.3) * 100) +
          0.2 * calculateDiversityScore results ≥
        0.5 * b.similarity_score +
          0.3 * ((min ((b.book.ratings_count : ℚ) / 10000) 1 * 0.7 +
            b.book.average_rating / 5 * 0.3) * 100) +
          0.2 * calculateDiversityScore results)
      (rankResults results) := by
  have h := List.sorted_insertionSort (rankRel (calculateDiversityScore results)) results
  exact h.imp (fun hab => hab)

end BookRec

namespace BookRec

theorem exceptBind_error {α β : Type} (e : String) (f : α → Except String β) :
    (Except.error e >>= f) = Except.error e := rfl

theorem exceptBind_ok {α β : Type} (a : α) (f : α → Except String β) :
    (Except.ok a >>= f) = f a := rfl

theorem isOk_error {α : Type} (e : String) :
    (Except.error e : Except String α).isOk = false := rfl

theorem isOk_ok {α : Type} (a : α) :
    (Except.ok a : Except String α).isOk = true := rfl

/-- C5: the claim that explanation generation never performs an
out-of-bounds access on the genre list is right about the intent but wrong
about the code: for a surviving candidate whose genre list is empty and a
non-empty query, `generateExplanation` reads `book.getGenres()[0]` out of
bounds (undefined behaviour) instead of producing the templated string;
with an empty query the same book is explained without failure. -/
theorem C5_empty_genre_explanation_oob :
    noGenreBook.genres[0]? = none ∧
    (generateExplanation noGenreBook "fantasy").isOk = false ∧
    (generateExplanation noGenreBook "").isOk = true :=
  ⟨rfl, rfl, rfl⟩

/-- C8 counterexample: the zero-vector fallback of `vectorizeQuery` has the
fixed length 384, which differs from the configured dimension of a store
constructed with `dimension = 128`. -/
theorem C8_counterexample :
    vectorizeQuery (fun q => q) failEmbed "space adventure" = List.replicate 384 0 ∧
    (List.replicate 384 (0 : ℚ)).length = 384 ∧
    (mkBookVectorStore 128 1000).dimension_ = 128 ∧ (384 : Int) ≠ 128 := by
  refine ⟨rfl, List.length_replicate 384 0, rfl, by decide⟩

/-- C8 amended: when the external embedding call fails, `vectorizeQuery`
swallows the failure and returns a zero vector of the fixed length 384
(`std::vector<float>(384, 0.0f)`) — not of the store's configured
dimension; the two agree only when the store uses the default dimension
384. -/
theorem C8_zero_vector_fixed (sq : ℚ → ℚ) (embed : String → Except String (List ℚ))
    (query : String) (e : String)
    (h : embed (preprocessQuery query) = Except.error e) :
    vectorizeQuery sq embed query = List.replicate 384 0 := by
  unfold vectorizeQuery
  rw [h]

/-- C8 witness: the amended statement applied to the always-failing
embedding collaborator. -/
theorem C8_witness :
    vectorizeQuery (fun q => q) failEmbed "cozy mystery" = List.replicate 384 0 :=
  C8_zero_vector_fixed (fun q => q) failEmbed "cozy mystery"
    "embedding provider failure" rfl

/-- C1 counterexample: when the vector store's search raises, the failure
does not propagate out of `getRecommendations` — the outer handler catches
it and the caller receives the empty list, indistinguishable from a query
with no matches. -/
theorem C1_counterexample :
    getRecommendationsE (fun q => q) okEmbed failSearch "space opera" emptyFilter 5 =
      Except.error "index failure" ∧
    getRecommendations (fun q => q) okEmbed failSearch "space opera" emptyFilter 5 = [] :=
  ⟨rfl, rfl⟩

/-- C1 amended: a failure at any pipeline stage after vectorization
(search, candidate reconstruction, explanation, ranking) is caught by the
`catch` block of `getRecommendations`, which logs it and returns the empty
list; no `QueryError` reaches the caller. -/
theorem C1_error_swallowed (sq : ℚ → ℚ) (embed : String → Except String (List ℚ))
    (searchFn : List ℚ → Nat → Except String (List SearchResult))
    (query : String) (filter : QueryFilter) (top_k : Nat) (e : String)
    (h : getRecommendationsE sq embed searchFn query filter top_k = Except.error e) :
    getRecommendations sq embed searchFn query filter top_k = [] := by
  unfold getRecommendations
  rw [h]

/-- C1 witness: the amended statement applied to a search collaborator
that raises. -/
theorem C1_witness :
    getRecommendations (fun q => q) okEmbed failSearch "epic fantasy" emptyFilter 5 = [] :=
  C1_error_swallowed (fun q => q) okEmbed failSearch "epic fantasy" emptyFilter 5
    "index failure" rfl

/-- C4 counterexample: one candidate with complete metadata and one whose
metadata lacks the required `title` key; instead of skipping only the
broken candidate, the whole query fails (and the engine's outer handler
then returns the empty list, not the surviving candidate). -/
theorem C4_counterexample :
    (processSearchResults [goodSR, badSR] "fantasy" emptyFilter).isOk = false ∧
    (reconstructBook goodDoc).isOk = true ∧
    getRecommendations (fun q => q) okEmbed mixedSearch "fantasy" emptyFilter 5 = [] :=
  ⟨rfl, rfl, rfl⟩

/-- C4 amended: if any candidate's stored metadata is missing a required
key or holds a value of the wrong type, candidate reconstruction aborts
the entire result-processing loop — the query does not succeed with the
remaining candidates. -/
theorem C4_reconstruction_failure_aborts (results : List SearchResult)
    (query : String) (filter : QueryFilter)
    (h : ∃ r, r ∈ results ∧ (reconstructBook r.document).isOk = false) :
    (processSearchResults results query filter).isOk = false := by
  induction results with
  | nil =>
      rcases h with ⟨r, hr, _⟩
      cases hr
  | cons r rest ih =>
      rcases h with ⟨r', hr', hfail⟩
      cases hrec : reconstructBook r.document with
      | error e =>
          simp only [processSearchResults, hrec, exceptBind_error, isOk_error]
      | ok book =>
          have hrest : ∃ rr, rr ∈ rest ∧ (reconstructBook rr.document).isOk = false := by
            rcases List.mem_cons.mp hr' with he | hm
            · rw [he, hrec, isOk_ok] at hfail
              cases hfail
            · exact ⟨r', hm, hfail⟩
          have htail := ih hrest
          by_cases hp : passesFilter book filter = true
          · cases hexp : generateExplanation book query with
            | error e =>
                simp only [processSearchResults, hrec, exceptBind_ok, if_pos hp,
                  hexp, exceptBind_error, isOk_error]
            | ok expl =>
                cases htl : processSearchResults rest query filter with
                | error e2 =>
                    simp only [processSearchResults, hrec, exceptBind_ok, if_pos hp,
                      hexp, htl, exceptBind_error, isOk_error]
                | ok l =>
                    rw [htl, isOk_ok] at htail
                    cases htail
          · simp only [processSearchResults, hrec, exceptBind_ok, if_neg hp]
            exact htail

/-- C4 witness: the amended statement applied to the two-candidate batch in
which the second candidate's metadata is missing `title`. -/
theorem C4_witness :
    (processSearchResults [goodSR, badSR] "queried books" emptyFilter).isOk = false :=
  C4_reconstruction_failure_aborts [goodSR, badSR] "queried books" emptyFilter
    ⟨badSR, by simp, rfl⟩

end BookRec

namespace BookRec

theorem mem_eraseFirstWithTs (c : List (String × CacheEntry)) (m : Nat)
    (e : String × CacheEntry) (h : e ∈ eraseFirstWithTs c m) : e ∈ c := by
  induction c with
  | nil => cases h
  | cons a rest ih =>
      by_cases ht : a.2.timestamp = m
      · rw [eraseFirstWithTs, if_pos ht] at h
        exact List.mem_cons_of_mem _ h
      · rw [eraseFirstWithTs, if_neg ht] at h
        rcases List.mem_cons.mp h with h' | h'
        · exact h' ▸ List.mem_cons_self _ _
        · exact List.mem_cons_of_mem _ (ih h')

theorem mem_removeOldestEntry (c : List (String × CacheEntry))
    (e : String × CacheEntry) (h : e ∈ removeOldestEntry c) : e ∈ c := by
  revert h
  unfold removeOldestEntry
  cases (c.map (fun x => x.2.timestamp)).min? with
  | none => exact fun h => h
  | some m => exact fun h => mem_eraseFirstWithTs c m e h

theorem mem_cleanupCache (now : Nat) (s : BookVectorStore)
    (e : String × CacheEntry) (h : e ∈ (cleanupCache now s).search_cache_) :
    e ∈ s.search_cache_ ∧ now - e.2.timestamp ≤ 60 := by
  have h' : e ∈ s.search_cache_.filter
      (fun x => decide (now - x.2.timestamp ≤ 60)) := h
  have hm := List.mem_filter.mp h'
  exact ⟨hm.1, of_decide_eq_true hm.2⟩

/-- C3 counterexample: the state reached by a single `put` at time 0 holds
the entry timestamped 0, and `getFromCache` — which consults no clock and
performs no age check — still returns it; a lookup 100 minutes later
(100 − 0 > 60, with no intervening operation to trigger cleanup) therefore
returns an entry far older than the 60-minute eviction age. -/
theorem C3_counterexample :
    getFromCache c3State "k" = some [] ∧
    mapLookup c3State.search_cache_ "k" = some ⟨[], 0⟩ ∧
    100 - 0 > 60 :=
  ⟨rfl, rfl, by decide⟩

/-- C3 amended: staleness is enforced only at mutation points — immediately
after `addToCache` every held entry is at most 60 minutes old — but
`getFromCache` itself performs no age check, so a lookup with no
intervening `put`/`setCacheSize` can return an arbitrarily old entry. -/
theorem C3_cache_fresh_after_put (now : Nat) (s : BookVectorStore) (key : String)
    (res : List SearchResult) (e : String × CacheEntry)
    (he : e ∈ (addToCache now s key res).search_cache_) :
    now - e.2.timestamp ≤ 60 := by
  have he' : e ∈ mapInsert
      (if atCapacity (cleanupCache now s).search_cache_.length
            (cleanupCache now s).cache_size_
       then removeOldestEntry (cleanupCache now s).search_cache_
       else (cleanupCache now s).search_cache_) key ⟨res, now⟩ := he
  rcases mem_mapInsert _ _ _ _ he' with h | h
  · rw [h]
    exact Nat.le_of_eq (Nat.sub_self now) |>.trans (by decide)
  · have hclean : e ∈ (cleanupCache now s).search_cache_ := by
      by_cases hcap : atCapacity (cleanupCache now s).search_cache_.length
          (cleanupCache now s).cache_size_
      · rw [if_pos hcap] at h
        exact mem_removeOldestEntry _ _ h
      · rw [if_neg hcap] at h
        exact h
    exact (mem_cleanupCache now s e hclean).2

/-- C3 witness: the amended statement applied to the single-put state. -/
theorem C3_witness :
    (0 : Nat) - (("k", (⟨[], 0⟩ : CacheEntry)) : String × CacheEntry).2.timestamp ≤ 60 :=
  C3_cache_fresh_after_put 0 (mkBookVectorStore 384 1000) "k" []
    ("k", ⟨[], 0⟩) (by decide)

/-- C9 counterexample: a cache reached by three `put`s of fresh, distinct
keys still holds all three entries immediately after `setCacheSize` shrank
the capacity to 1 — no eviction down to the new bound takes place. -/
theorem C9_counterexample :
    (setCacheSize 0 c9State 1).search_cache_.length = 3 ∧
    (setCacheSize 0 c9State 1).cache_size_ = 1 ∧
    ¬ (3 ≤ 1) :=
  ⟨rfl, rfl, by decide⟩

/-- C9 amended: `setCacheSize` records the new capacity and performs only
the age-based `cleanupCache` — every surviving entry is at most 60 minutes
old and was already present — so entries in excess of a shrunken bound
survive until they expire or are displaced one at a time by later inserts. -/
theorem C9_setCacheSize_age_cleanup_only (now : Nat) (s : BookVectorStore) (n : Int) :
    (setCacheSize now s n).cache_size_ = n ∧
    ∀ e, e ∈ (setCacheSize now s n).search_cache_ →
      now - e.2.timestamp ≤ 60 ∧ e ∈ s.search_cache_ := by
  constructor
  · rfl
  · intro e he
    have he' : e ∈ s.search_cache_.filter
        (fun x => decide (now - x.2.timestamp ≤ 60)) := he
    have hm := List.mem_filter.mp he'
    exact ⟨of_decide_eq_true hm.2, hm.1⟩

/-- C9 witness: the amended statement applied to the three-put state. -/
theorem C9_witness :
    (setCacheSize 0 c9State 5).cache_size_ = 5 ∧
    ((0 : Nat) - (("a", (⟨[], 0⟩ : CacheEntry)) : String × CacheEntry).2.timestamp ≤ 60 ∧
      ("a", (⟨[], 0⟩ : CacheEntry)) ∈ c9State.search_cache_) :=
  ⟨(C9_setCacheSize_age_cleanup_only 0 c9State 5).1,
   (C9_setCacheSize_age_cleanup_only 0 c9State 5).2 ("a", ⟨[], 0⟩) (by decide)⟩

theorem loadRecords_truncated (recs : List (Except String Document)) :
    ∀ (remaining : Nat) (s : BookVectorStore) (i : Nat),
      i ≤ recs.length → recs.length < i + remaining →
      ((loadRecords s recs i remaining).2).isSome = true := by
  intro remaining
  induction remaining with
  | zero =>
      intro s i hle hlt
      exact absurd hlt (by omega)
  | succ rem ih =>
      intro s i hle hlt
      cases hget : recs[i]? with
      | none => simp [loadRecords, hget]
      | some x =>
          cases x with
          | error e => simp [loadRecords, hget]
          | ok doc =>
              have hi : i < recs.length := by
                by_contra hni
                rw [List.getElem?_eq_none (Nat.le_of_not_lt hni)] at hget
                cases hget
              simp only [loadRecords, hget]
              exact ih _ (i + 1) hi (by omega)

theorem loadRecords_docs_from_records (recs : List (Except String Document)) :
    ∀ (remaining : Nat) (s : BookVectorStore) (i : Nat) (id : String) (d : Document),
      mapLookup (loadRecords s recs i remaining).1.document_store_ id = some d →
      mapLookup s.document_store_ id = some d ∨ Except.ok d ∈ recs := by
  intro remaining
  induction remaining with
  | zero =>
      intro s i id d h
      exact Or.inl h
  | succ rem ih =>
      intro s i id d h
      cases hget : recs[i]? with
      | none =>
          simp only [loadRecords, hget] at h
          exact Or.inl h
      | some x =>
          cases x with
          | error e =>
              simp only [loadRecords, hget] at h
              exact Or.inl h
          | ok doc =>
              simp only [loadRecords, hget] at h
              rcases ih _ (i + 1) id d h with h' | h'
              · have h'' : mapLookup (mapInsert s.document_store_ doc.id doc) id =
                    some d := h'
                rw [mapLookup_mapInsert] at h''
                by_cases hid : id = doc.id
                · rw [if_pos hid, Option.some.injEq] at h''
                  exact Or.inr (h'' ▸ List.getElem?_mem hget)
                · rw [if_neg hid] at h''
                  exact Or.inl h''
              · exact Or.inr h'

/-- C2 counterexample: loading the §8 failure artifact (declared count 5,
two records) into a store that held `d0` raises, yet the store's prior
contents are gone — `d0` is no longer present, the partially loaded
records are — so load is not all-or-nothing. -/
theorem C2_counterexample :
    ((loadIndex priorStore badFile).2).isSome = true ∧
    (loadIndex priorStore badFile).1.document_store_ ≠ priorStore.document_store_ ∧
    mapLookup (loadIndex priorStore badFile).1.document_store_ "d0" = none :=
  ⟨rfl, by decide, rfl⟩

/-- C2 amended: a failing `loadIndex` (here: declared record count larger
than the records actually present) does raise `IndexError`, but it first
clears the store's prior contents: after the failure the document store
holds only documents parsed from the artifact before the failure, never
the pre-call contents. -/
theorem C2_load_failure_not_all_or_nothing (s : BookVectorStore) (f : MappingFile)
    (htrunc : f.records.length < f.declared_count) :
    ((loadIndex s f).2).isSome = true ∧
    ∀ id d, mapLookup (loadIndex s f).1.document_store_ id = some d →
      Except.ok d ∈ f.records := by
  constructor
  · exact loadRecords_truncated f.records f.declared_count _ 0
      (Nat.zero_le _) (by omega)
  · intro id d h
    rcases loadRecords_docs_from_records f.records f.declared_count _ 0 id d h
      with h' | h'
    · simp [mapLookup] at h'
    · exact h'

/-- C2 witness: the amended statement applied to the concrete store and
artifact. -/
theorem C2_witness :
    badFile.records.length < badFile.declared_count ∧
    ((loadIndex priorStore badFile).2).isSome = true :=
  ⟨by decide,
   (C2_load_failure_not_all_or_nothing priorStore badFile (by decide)).1⟩

end BookRec
